import Mathlib

/- Verification of the terrain-generator core in src/main.rs.

   The embedding keeps the source's structure: `quantize_color` and
   `get_terrain_color` are the two color functions of `TerrainApp`,
   `synthesize` is the body of `TerrainApp::regenerate_terrain` (the spec's
   `synthesize(seed, config)` operation), and `TerrainApp.regenerate_terrain`
   is the `&mut self` method that stores the fresh buffer.

   Numeric conventions: `f64` heights are carried as exact rationals extended
   with NaN and the two infinities, since the classifier only performs strict
   `<` comparisons against the decimal literals 0.3 … 0.8 and those
   comparisons have the same outcome over ℚ as over `f64` for the inputs at
   issue.  The `f32` arithmetic of `quantize_color` is carried over ℚ with
   round-half-away-from-zero (Rust `f32::round`) and a saturating cast
   (Rust `as u8`); for byte channels and the steps that occur the `f32`
   results are exact, so ℚ agrees with the machine computation.  The Perlin
   field of the `noise` crate is outside this repository; it enters as an
   abstract parameter `perlinNew : ℕ → ℚ → ℚ → ℚ` standing for
   `Perlin::new(seed)` followed by `.get([x, y])`. -/

namespace TerrainGen

/-- RGBA color, embedding `egui::Color32`; each field holds one byte channel. -/
structure Color32 where
  r : ℕ
  g : ℕ
  b : ℕ
  a : ℕ
deriving DecidableEq, Repr

/-- `Color32::from_rgb`: alpha is always 255 (full opacity). -/
def Color32.from_rgb (r g b : ℕ) : Color32 :=
  ⟨r, g, b, 255⟩

/-- `Color32::to_array`: the four bytes of a pixel in RGBA order. -/
def Color32.to_array (c : Color32) : List ℕ :=
  [c.r, c.g, c.b, c.a]

/-- Classifier inputs: an `f64` height is an exact rational or one of the
non-finite values NaN, +∞, -∞, so the strict less-than chain of
`get_terrain_color` can be studied over every `f64` input shape. -/
inductive F64 where
  | val (q : ℚ)
  | nan
  | inf
  | neginf
deriving DecidableEq, Repr

/-- IEEE-754 strict less-than on the shapes above: every comparison with NaN
is false, -∞ is below every finite value and below +∞, +∞ is below nothing. -/
def F64.lt : F64 → F64 → Bool
  | .nan, _ => false
  | _, .nan => false
  | .val a, .val b => decide (a < b)
  | .val _, .inf => true
  | .val _, .neginf => false
  | .neginf, .neginf => false
  | .neginf, _ => true
  | .inf, _ => false

/-- Rust `f32::round`: round half away from zero, over exact rationals. -/
def rustRound (q : ℚ) : ℤ :=
  if 0 ≤ q then ⌊q + 1 / 2⌋ else -⌊-q + 1 / 2⌋

/-- Rust `as u8` applied to a float holding an exact integer: the cast
saturates to `[0, 255]`. -/
def satU8 (z : ℤ) : ℕ :=
  (min 255 (max 0 z)).toNat

/-- The per-channel closure inside `quantize_color`, for the already computed
integer `step = 255 / pixel_size`:
`((v as f32 / step as f32).round() * step as f32) as u8`.
(When `step = 0`, Rust produces NaN or ±∞ and the saturating cast yields 0;
rational division by zero also yields 0, so the branches agree.) -/
def quantizeChannel (step v : ℕ) : ℕ :=
  satU8 (rustRound ((v : ℚ) / (step : ℚ)) * step)

/-- `TerrainApp::quantize_color`.  `step = 255 / pixel_size` is `u32`
division, which panics when `pixel_size = 0`; the panic is modelled as
`none`.  Otherwise each channel goes through the closure above and the
result is `Color32::from_rgb` of the three quantized channels. -/
def quantize_color (color : ℕ × ℕ × ℕ) (pixel_size : ℕ) : Option Color32 :=
  if pixel_size = 0 then none
  else
    let step := 255 / pixel_size
    some (Color32.from_rgb (quantizeChannel step color.1)
      (quantizeChannel step color.2.1) (quantizeChannel step color.2.2))

/-- The match chain inside `get_terrain_color`: the biome base color selected
by testing the height with strict less-than against the ascending thresholds
0.3, 0.4, 0.5, 0.7, 0.8, first match winning, with a catch-all last arm. -/
def classify (height : F64) : ℕ × ℕ × ℕ :=
  if F64.lt height (.val (3 / 10)) then (0, 0, 255)         -- Deep water
  else if F64.lt height (.val (4 / 10)) then (65, 105, 225)  -- Water
  else if F64.lt height (.val (5 / 10)) then (210, 180, 140) -- Sand
  else if F64.lt height (.val (7 / 10)) then (34, 139, 34)   -- Grass
  else if F64.lt height (.val (8 / 10)) then (139, 69, 19)   -- Mountain
  else (255, 255, 255)                                       -- Snow

/-- `TerrainApp::get_terrain_color`: select the biome base color, then
quantize it with the fixed factor 1 (`// Assuming pixel_size is 1`).
Factor 1 is nonzero, so `quantize_color` returns `some`; `getD` only
unwraps it and its default is never reached (`quantize_color_one_isSome`). -/
def get_terrain_color (height : F64) : Color32 :=
  (quantize_color (classify height) 1).getD (Color32.from_rgb 0 0 0)

/-- The terrain parameters; `regenerate_terrain` reads every field except
`pixel_size`. -/
structure TerrainConfig where
  width : ℕ
  height : ℕ
  scale : ℚ
  octaves : ℕ
  persistence : ℚ
  lacunarity : ℚ
  pixel_size : ℕ
deriving DecidableEq, Repr

/-- The produced image (`egui::ColorImage`): dimensions plus the row-major
pixel list. -/
structure ColorImage where
  width : ℕ
  height : ℕ
  pixels : List Color32
deriving DecidableEq, Repr

/-- The octave loop of `regenerate_terrain` on the state
`(noise_value, amplitude, frequency)`; one iteration adds
`sample(nx * frequency * scale, ny * frequency * scale) * amplitude` and then
multiplies amplitude by persistence and frequency by lacunarity. -/
def noiseLoop (sample : ℚ → ℚ → ℚ) (scale persistence lacunarity nx ny : ℚ) :
    ℕ → ℚ × ℚ × ℚ → ℚ × ℚ × ℚ
  | 0, st => st
  | n + 1, (noise_value, amplitude, frequency) =>
      noiseLoop sample scale persistence lacunarity nx ny n
        (noise_value + sample (nx * frequency * scale) (ny * frequency * scale) * amplitude,
          amplitude * persistence, frequency * lacunarity)

/-- The body of `TerrainApp::regenerate_terrain` — the spec's
`synthesize(seed, config)` operation.  `perlinNew` abstracts
`Perlin::new(seed)` of the `noise` crate.  Pixels are produced by
`(0..height).flat_map(|y| (0..width).map(|x| …))`, i.e. row-major; `1 / 2`
is the literal `0.5`. -/
def synthesize (perlinNew : ℕ → ℚ → ℚ → ℚ) (seed : ℕ) (config : TerrainConfig) :
    ColorImage :=
  let perlin := perlinNew seed
  let width := config.width
  let height := config.height
  let scale := config.scale
  let octaves := config.octaves
  let persistence := config.persistence
  let lacunarity := config.lacunarity
  let pixels : List Color32 :=
    (List.range height).flatMap fun (y : ℕ) =>
      (List.range width).map fun (x : ℕ) =>
        let nx := (x : ℚ) / (width : ℚ) - 1 / 2
        let ny := (y : ℚ) / (height : ℚ) - 1 / 2
        let st := noiseLoop perlin scale persistence lacunarity nx ny octaves (0, 1, 1)
        let noise_value := (st.1 + 1) / 2
        get_terrain_color (F64.val noise_value)
  { width := width, height := height, pixels := pixels }

/-- The application state; `regenerate_terrain` replaces `terrain` only. -/
structure TerrainApp where
  config : TerrainConfig
  terrain : ColorImage
  seed : ℕ
  texture_handle : Option Unit

/-- The `&mut self` method `TerrainApp::regenerate_terrain`: it stores the
freshly synthesized buffer into `terrain` and touches nothing else. -/
def TerrainApp.regenerate_terrain (perlinNew : ℕ → ℚ → ℚ → ℚ) (app : TerrainApp) :
    TerrainApp :=
  { app with terrain := synthesize perlinNew app.seed app.config }

/-- The per-pixel normalized height of §4.2 steps 1–3, written as the spec
writes it: centered coordinates, the octave loop started from
`(0, 1, 1)`, then `(noise_value + 1) / 2`, with no clamping. -/
def normalizedHeight (sample : ℚ → ℚ → ℚ) (config : TerrainConfig) (x y : ℕ) : ℚ :=
  ((noiseLoop sample config.scale config.persistence config.lacunarity
      ((x : ℚ) / (config.width : ℚ) - 1 / 2) ((y : ℚ) / (config.height : ℚ) - 1 / 2)
      config.octaves (0, 1, 1)).1 + 1) / 2

/-! Helper lemmas: reduction of `F64.lt` on constructor shapes, evaluation of
the quantizer at factor 1, the biome table of `classify` at concrete heights,
and row-major indexing of the nested `flat_map`/`map` pixel production. -/

lemma F64.lt_val (a b : ℚ) : F64.lt (.val a) (.val b) = decide (a < b) := rfl

lemma F64.lt_nan_left (x : F64) : F64.lt .nan x = false := by
  cases x <;> rfl

lemma F64.lt_nan_right (x : F64) : F64.lt x .nan = false := by
  cases x <;> rfl

lemma F64.lt_neginf_val (b : ℚ) : F64.lt .neginf (.val b) = true := rfl

lemma F64.lt_inf_val (b : ℚ) : F64.lt .inf (.val b) = false := rfl

lemma rustRound_nonneg (q : ℚ) (hq : 0 ≤ q) : rustRound q = ⌊q + 1 / 2⌋ := by
  unfold rustRound
  exact if_pos hq

/-- At `step = 255` (the value produced by factor 1) the channel quantizer
collapses a byte to 0 below 127.5 and to 255 at or above 127.5. -/
lemma quantizeChannel_255 (v : ℕ) (hv : v ≤ 255) :
    quantizeChannel 255 v = if v ≤ 127 then 0 else 255 := by
  unfold quantizeChannel satU8
  have hc : ((255 : ℕ) : ℚ) = (255 : ℚ) := by norm_num
  rw [hc, rustRound_nonneg _ (by positivity)]
  by_cases h : v ≤ 127
  · have hv127 : (v : ℚ) ≤ 127 := by exact_mod_cast h
    have hf : ⌊(v : ℚ) / 255 + 1 / 2⌋ = 0 := by
      rw [Int.floor_eq_iff]
      constructor
      · push_cast
        positivity
      · push_cast
        have : (v : ℚ) / 255 < 1 / 2 := by
          rw [div_lt_iff (by norm_num)]
          linarith
        linarith
    rw [hf, if_pos h]
    norm_num
  · have h128 : (128 : ℚ) ≤ (v : ℚ) := by
      have : 128 ≤ v := by omega
      exact_mod_cast this
    have hv255 : (v : ℚ) ≤ 255 := by exact_mod_cast hv
    have hf : ⌊(v : ℚ) / 255 + 1 / 2⌋ = 1 := by
      rw [Int.floor_eq_iff]
      constructor
      · push_cast
        have : (1 : ℚ) / 2 ≤ (v : ℚ) / 255 := by
          rw [le_div_iff (by norm_num)]
          linarith
        linarith
      · push_cast
        have : (v : ℚ) / 255 ≤ 1 := by
          rw [div_le_one (by norm_num)]
          linarith
        linarith
    rw [hf, if_neg h]
    norm_num
    rfl

/-- `quantize_color` at factor 1 in closed form: each byte channel collapses
to 0 or 255 with threshold 127.5. -/
lemma quantize_color_one (r g b : ℕ) (hr : r ≤ 255) (hg : g ≤ 255) (hb : b ≤ 255) :
    quantize_color (r, g, b) 1 =
      some (Color32.from_rgb (if r ≤ 127 then 0 else 255)
        (if g ≤ 127 then 0 else 255) (if b ≤ 127 then 0 else 255)) := by
  unfold quantize_color
  rw [if_neg (by norm_num)]
  show some (Color32.from_rgb (quantizeChannel (255 / 1) r) (quantizeChannel (255 / 1) g)
    (quantizeChannel (255 / 1) b)) = _
  norm_num [quantizeChannel_255 r hr, quantizeChannel_255 g hg, quantizeChannel_255 b hb]

lemma quantize_one_deepwater : quantize_color (0, 0, 255) 1 = some (Color32.from_rgb 0 0 255) := by
  rw [quantize_color_one 0 0 255 (by norm_num) (by norm_num) (by norm_num)]
  norm_num

lemma quantize_one_water : quantize_color (65, 105, 225) 1 = some (Color32.from_rgb 0 0 255) := by
  rw [quantize_color_one 65 105 225 (by norm_num) (by norm_num) (by norm_num)]
  norm_num

lemma quantize_one_sand :
    quantize_color (210, 180, 140) 1 = some (Color32.from_rgb 255 255 255) := by
  rw [quantize_color_one 210 180 140 (by norm_num) (by norm_num) (by norm_num)]
  norm_num

lemma quantize_one_grass : quantize_color (34, 139, 34) 1 = some (Color32.from_rgb 0 255 0) := by
  rw [quantize_color_one 34 139 34 (by norm_num) (by norm_num) (by norm_num)]
  norm_num

lemma quantize_one_mountain :
    quantize_color (139, 69, 19) 1 = some (Color32.from_rgb 255 0 0) := by
  rw [quantize_color_one 139 69 19 (by norm_num) (by norm_num) (by norm_num)]
  norm_num

lemma quantize_one_snow :
    quantize_color (255, 255, 255) 1 = some (Color32.from_rgb 255 255 255) := by
  rw [quantize_color_one 255 255 255 (by norm_num) (by norm_num) (by norm_num)]
  norm_num

lemma gtc_of_classify (h : F64) (c : ℕ × ℕ × ℕ) (col : Color32)
    (h1 : classify h = c) (h2 : quantize_color c 1 = some col) :
    get_terrain_color h = col := by
  unfold get_terrain_color
  rw [h1, h2]
  rfl

lemma classify_cases (h : F64) :
    classify h = (0, 0, 255) ∨ classify h = (65, 105, 225) ∨ classify h = (210, 180, 140) ∨
      classify h = (34, 139, 34) ∨ classify h = (139, 69, 19) ∨ classify h = (255, 255, 255) := by
  unfold classify
  split_ifs <;> simp

lemma classify_h000 : classify (.val 0) = (0, 0, 255) := by
  norm_num [classify, F64.lt_val]

lemma classify_h029 : classify (.val (29 / 100)) = (0, 0, 255) := by
  norm_num [classify, F64.lt_val]

lemma classify_h030 : classify (.val (3 / 10)) = (65, 105, 225) := by
  norm_num [classify, F64.lt_val]

lemma classify_h039 : classify (.val (39 / 100)) = (65, 105, 225) := by
  norm_num [classify, F64.lt_val]

lemma classify_h040 : classify (.val (4 / 10)) = (210, 180, 140) := by
  norm_num [classify, F64.lt_val]

lemma classify_h049 : classify (.val (49 / 100)) = (210, 180, 140) := by
  norm_num [classify, F64.lt_val]

lemma classify_h050 : classify (.val (5 / 10)) = (34, 139, 34) := by
  norm_num [classify, F64.lt_val]

lemma classify_h069 : classify (.val (69 / 100)) = (34, 139, 34) := by
  norm_num [classify, F64.lt_val]

lemma classify_h070 : classify (.val (7 / 10)) = (139, 69, 19) := by
  norm_num [classify, F64.lt_val]

lemma classify_h079 : classify (.val (79 / 100)) = (139, 69, 19) := by
  norm_num [classify, F64.lt_val]

lemma classify_h080 : classify (.val (8 / 10)) = (255, 255, 255) := by
  norm_num [classify, F64.lt_val]

lemma classify_h100 : classify (.val 1) = (255, 255, 255) := by
  norm_num [classify, F64.lt_val]

lemma classify_h075 : classify (.val (3 / 4)) = (139, 69, 19) := by
  norm_num [classify, F64.lt_val]

lemma classify_of_nan : classify .nan = (255, 255, 255) := by
  simp [classify, F64.lt_nan_left]

lemma classify_of_inf : classify .inf = (255, 255, 255) := by
  simp [classify, F64.lt_inf_val]

lemma classify_of_neginf : classify .neginf = (0, 0, 255) := by
  simp [classify, F64.lt_neginf_val]

lemma get_terrain_color_a (h : F64) : (get_terrain_color h).a = 255 := rfl

/-- Length of the row-major double loop: `height` rows of `width` pixels. -/
lemma grid_length {α : Type} (w h : ℕ) (f : ℕ → ℕ → α) :
    ((List.range h).flatMap fun y => (List.range w).map fun x => f y x).length = h * w := by
  induction h with
  | zero => simp
  | succ n ih =>
      rw [List.range_succ, List.flatMap_append]
      simp [ih, Nat.succ_mul]

/-- Row-major indexing of the double loop: the element at `y * w + x` is the
value produced for coordinates `(x, y)`. -/
lemma grid_getElem {α : Type} (f : ℕ → ℕ → α) (w : ℕ) :
    ∀ h y x, x < w → y < h →
      ((List.range h).flatMap fun y => (List.range w).map fun x => f y x)[y * w + x]? =
        some (f y x) := by
  intro h
  induction h with
  | zero => exact fun y x hx hy => absurd hy (Nat.not_lt_zero y)
  | succ n ih =>
      intro y x hx hy
      rw [List.range_succ, List.flatMap_append]
      by_cases hyn : y < n
      · rw [List.getElem?_append_left]
        · exact ih y x hx hyn
        · rw [grid_length]
          calc y * w + x < y * w + w := by omega
            _ = (y + 1) * w := (Nat.succ_mul y w).symm
            _ ≤ n * w := Nat.mul_le_mul_right w (by omega)
      · have hyeq : y = n := by omega
        subst hyeq
        rw [List.getElem?_append_right (by rw [grid_length]; omega)]
        rw [grid_length]
        have hidx : y * w + x - y * w = x := by omega
        rw [hidx]
        simp [List.getElem?_range hx]

/-- The pixel list built by `synthesize` is definitionally the row-major double
loop over `get_terrain_color` of the spec's normalized height. -/
lemma synthesize_pixels_eq (perlinNew : ℕ → ℚ → ℚ → ℚ) (seed : ℕ) (cfg : TerrainConfig) :
    (synthesize perlinNew seed cfg).pixels =
      (List.range cfg.height).flatMap fun y =>
        (List.range cfg.width).map fun x =>
          get_terrain_color (F64.val (normalizedHeight (perlinNew seed) cfg x y)) := by
  unfold synthesize normalizedHeight
  rfl

lemma synthesize_pixels_get (perlinNew : ℕ → ℚ → ℚ → ℚ) (seed : ℕ) (cfg : TerrainConfig)
    (x y : ℕ) (hx : x < cfg.width) (hy : y < cfg.height) :
    (synthesize perlinNew seed cfg).pixels[y * cfg.width + x]? =
      some (get_terrain_color (F64.val (normalizedHeight (perlinNew seed) cfg x y))) := by
  rw [synthesize_pixels_eq]
  exact grid_getElem _ cfg.width cfg.height y x hx hy

lemma byte_below_half (v : ℕ) : ((v : ℚ) < 255 / 2) = (v ≤ 127) := by
  apply propext
  constructor
  · intro hlt
    by_contra hv
    push_neg at hv
    have : (128 : ℚ) ≤ (v : ℚ) := by exact_mod_cast hv
    linarith
  · intro hle
    have : (v : ℚ) ≤ 127 := by exact_mod_cast hle
    linarith

/-! The claims. -/

/-- Claim C1 (corrected).  The inner match of `get_terrain_color` does test the
height with strict less-than against 0.3, 0.4, 0.5, 0.7, 0.8 in ascending
order, first match winning, and at the twelve boundary heights it selects
exactly the table base colors; but `get_terrain_color` then feeds the selected
color through `quantize_color` with factor 1, so the operation's output is the
quantized color, not the table color (see the counterexample at height 0.49). -/
theorem C1_biome_table_amended :
    (∀ h : F64, get_terrain_color h =
        (quantize_color (classify h) 1).getD (Color32.from_rgb 0 0 0)) ∧
    (∀ q : ℚ, classify (.val q) =
        if q < 3 / 10 then (0, 0, 255)
        else if q < 4 / 10 then (65, 105, 225)
        else if q < 5 / 10 then (210, 180, 140)
        else if q < 7 / 10 then (34, 139, 34)
        else if q < 8 / 10 then (139, 69, 19)
        else (255, 255, 255)) ∧
    classify (.val 0) = (0, 0, 255) ∧
    classify (.val (29 / 100)) = (0, 0, 255) ∧
    classify (.val (3 / 10)) = (65, 105, 225) ∧
    classify (.val (39 / 100)) = (65, 105, 225) ∧
    classify (.val (4 / 10)) = (210, 180, 140) ∧
    classify (.val (49 / 100)) = (210, 180, 140) ∧
    classify (.val (5 / 10)) = (34, 139, 34) ∧
    classify (.val (69 / 100)) = (34, 139, 34) ∧
    classify (.val (7 / 10)) = (139, 69, 19) ∧
    classify (.val (79 / 100)) = (139, 69, 19) ∧
    classify (.val (8 / 10)) = (255, 255, 255) ∧
    classify (.val 1) = (255, 255, 255) := by
  refine ⟨fun _ => rfl, fun q => ?_, classify_h000, classify_h029, classify_h030, classify_h039,
    classify_h040, classify_h049, classify_h050, classify_h069, classify_h070, classify_h079,
    classify_h080, classify_h100⟩
  unfold classify
  simp only [F64.lt_val, decide_eq_true_eq]

/-- Claim C1, counterexample.  Height 0.49 falls in the Sand band, whose table
color is (210,180,140); the color-classification operation
`get_terrain_color` instead returns the quantized color (255,255,255). -/
theorem C1_biome_table_counterexample :
    get_terrain_color (.val (49 / 100)) = Color32.from_rgb 255 255 255 ∧
    Color32.from_rgb 255 255 255 ≠ Color32.from_rgb 210 180 140 :=
  ⟨gtc_of_classify _ _ _ classify_h049 quantize_one_sand, by decide⟩

/-- Claim C2 (confirmed).  For every pixel inside the image and every config
with at least one octave, the stored pixel is exactly
`get_terrain_color` of the normalized height
`(noiseLoop … octaves (0, 1, 1) + 1) / 2` computed from
`nx = x/width - 0.5`, `ny = y/height - 0.5`, with no clamping in between. -/
theorem C2_pixel_height_formula (perlinNew : ℕ → ℚ → ℚ → ℚ) (seed : ℕ)
    (cfg : TerrainConfig) (x y : ℕ) (hx : x < cfg.width) (hy : y < cfg.height)
    (hoct : 1 ≤ cfg.octaves) :
    (synthesize perlinNew seed cfg).pixels[y * cfg.width + x]? =
      some (get_terrain_color (F64.val (normalizedHeight (perlinNew seed) cfg x y))) :=
  synthesize_pixels_get perlinNew seed cfg x y hx hy

/-- Claim C2, witness at a 2×2 config with one octave, pixel (1, 1). -/
theorem C2_pixel_height_formula_witness :
    1 < 2 ∧ 1 ≤ 1 ∧
    (synthesize (fun _ a b => a * b) 5 ⟨2, 2, 1, 1, 1 / 2, 2, 1⟩).pixels[1 * 2 + 1]? =
      some (get_terrain_color (F64.val (normalizedHeight ((fun (_ : ℕ) (a b : ℚ) => a * b) 5)
        ⟨2, 2, 1, 1, 1 / 2, 2, 1⟩ 1 1))) :=
  ⟨by decide, by decide,
    C2_pixel_height_formula (fun _ a b => a * b) 5 ⟨2, 2, 1, 1, 1 / 2, 2, 1⟩ 1 1
      (by decide) (by decide) (by decide)⟩

/-- Claim C3 (confirmed).  `synthesize` is a pure function of
(noise constructor, seed, config): equal seeds and equal configs give equal
images and byte-identical RGBA buffers. -/
theorem C3_determinism (perlinNew : ℕ → ℚ → ℚ → ℚ) (s₁ s₂ : ℕ) (c₁ c₂ : TerrainConfig)
    (hs : s₁ = s₂) (hc : c₁ = c₂) :
    synthesize perlinNew s₁ c₁ = synthesize perlinNew s₂ c₂ ∧
    (synthesize perlinNew s₁ c₁).pixels.flatMap Color32.to_array =
      (synthesize perlinNew s₂ c₂).pixels.flatMap Color32.to_array := by
  subst hs
  subst hc
  exact ⟨rfl, rfl⟩

/-- Claim C3, witness: two invocations at seed 7 on a 1×1 config coincide. -/
theorem C3_determinism_witness :
    (7 : ℕ) = 7 ∧
    synthesize (fun _ a b => a + b) 7 ⟨1, 1, 1, 1, 1, 1, 1⟩ =
      synthesize (fun _ a b => a + b) 7 ⟨1, 1, 1, 1, 1, 1, 1⟩ :=
  ⟨rfl, (C3_determinism (fun _ a b => a + b) 7 7 ⟨1, 1, 1, 1, 1, 1, 1⟩
    ⟨1, 1, 1, 1, 1, 1, 1⟩ rfl rfl).1⟩

/-- Claim C4 (confirmed).  The output buffer carries the config's dimensions,
holds exactly width×height RGBA pixels row-major with the pixel of `(x, y)` at
index `y*width + x`, every pixel fully opaque, and is empty (not an error)
when width or height is 0. -/
theorem C4_buffer_layout (perlinNew : ℕ → ℚ → ℚ → ℚ) (seed : ℕ) (cfg : TerrainConfig) :
    (synthesize perlinNew seed cfg).width = cfg.width ∧
    (synthesize perlinNew seed cfg).height = cfg.height ∧
    (synthesize perlinNew seed cfg).pixels.length = cfg.width * cfg.height ∧
    (∀ x y : ℕ, x < cfg.width → y < cfg.height →
      (synthesize perlinNew seed cfg).pixels[y * cfg.width + x]? =
        some (get_terrain_color (F64.val (normalizedHeight (perlinNew seed) cfg x y)))) ∧
    (∀ p : Color32, p ∈ (synthesize perlinNew seed cfg).pixels → p.a = 255) ∧
    (cfg.width = 0 ∨ cfg.height = 0 → (synthesize perlinNew seed cfg).pixels = []) := by
  refine ⟨rfl, rfl, ?_, ?_, ?_, ?_⟩
  · rw [synthesize_pixels_eq, grid_length, Nat.mul_comm]
  · exact fun x y hx hy => synthesize_pixels_get perlinNew seed cfg x y hx hy
  · intro p hp
    rw [synthesize_pixels_eq] at hp
    simp only [List.mem_flatMap, List.mem_map] at hp
    obtain ⟨y, -, x, -, rfl⟩ := hp
    exact get_terrain_color_a _
  · intro h0
    rw [synthesize_pixels_eq]
    rcases h0 with h0 | h0 <;> rw [h0] <;> simp

/-- Claim C4, witness: 2×1 config (length and indexing) and a width-0 config
(empty buffer). -/
theorem C4_buffer_layout_witness :
    (synthesize (fun _ a b => a + b) 0 ⟨2, 1, 1, 1, 1, 1, 1⟩).pixels.length = 2 * 1 ∧
    1 < 2 ∧ 0 < 1 ∧
    (synthesize (fun _ a b => a + b) 0 ⟨2, 1, 1, 1, 1, 1, 1⟩).pixels[0 * 2 + 1]? =
      some (get_terrain_color (F64.val (normalizedHeight ((fun (_ : ℕ) (a b : ℚ) => a + b) 0)
        ⟨2, 1, 1, 1, 1, 1, 1⟩ 1 0))) ∧
    (synthesize (fun _ a b => a + b) 0 ⟨0, 3, 1, 1, 1, 1, 1⟩).pixels = [] :=
  ⟨(C4_buffer_layout (fun _ a b => a + b) 0 ⟨2, 1, 1, 1, 1, 1, 1⟩).2.2.1,
    by decide, by decide,
    (C4_buffer_layout (fun _ a b => a + b) 0 ⟨2, 1, 1, 1, 1, 1, 1⟩).2.2.2.1 1 0
      (by decide) (by decide),
    (C4_buffer_layout (fun _ a b => a + b) 0 ⟨0, 3, 1, 1, 1, 1, 1⟩).2.2.2.2.2 (Or.inl rfl)⟩

/-- Claim C5 (confirmed).  At factor 1 the quantizer's step is 255, and each
output channel is 0 when the input channel is below 127.5 and 255 when it is
at or above 127.5; in particular every output channel is 0 or 255. -/
theorem C5_quantize_one_binary (r g b : ℕ) (hr : r ≤ 255) (hg : g ≤ 255) (hb : b ≤ 255) :
    quantize_color (r, g, b) 1 =
      some (Color32.from_rgb (if (r : ℚ) < 255 / 2 then 0 else 255)
        (if (g : ℚ) < 255 / 2 then 0 else 255) (if (b : ℚ) < 255 / 2 then 0 else 255)) ∧
    ∀ c : Color32, quantize_color (r, g, b) 1 = some c →
      (c.r = 0 ∨ c.r = 255) ∧ (c.g = 0 ∨ c.g = 255) ∧ (c.b = 0 ∨ c.b = 255) := by
  have h1 : quantize_color (r, g, b) 1 =
      some (Color32.from_rgb (if (r : ℚ) < 255 / 2 then 0 else 255)
        (if (g : ℚ) < 255 / 2 then 0 else 255) (if (b : ℚ) < 255 / 2 then 0 else 255)) := by
    rw [quantize_color_one r g b hr hg hb]
    simp only [byte_below_half]
  refine ⟨h1, fun c hc => ?_⟩
  rw [h1] at hc
  injection hc with hc
  subst hc
  refine ⟨?_, ?_, ?_⟩ <;> simp only [Color32.from_rgb] <;> split_ifs <;> simp

/-- Claim C5, witness at channels (65, 200, 127). -/
theorem C5_quantize_one_binary_witness :
    65 ≤ 255 ∧ 200 ≤ 255 ∧ 127 ≤ 255 ∧
    quantize_color (65, 200, 127) 1 =
      some (Color32.from_rgb (if ((65 : ℕ) : ℚ) < 255 / 2 then 0 else 255)
        (if ((200 : ℕ) : ℚ) < 255 / 2 then 0 else 255)
        (if ((127 : ℕ) : ℚ) < 255 / 2 then 0 else 255)) :=
  ⟨by decide, by decide, by decide,
    (C5_quantize_one_binary 65 200 127 (by decide) (by decide) (by decide)).1⟩

/-- Claim C6 (corrected).  Quantization with factor 1 is not a no-op on the
biome palette: it collapses every channel to 0 or 255.  Only Deep water
(0,0,255) and Snow (255,255,255) are fixed points; Water becomes (0,0,255),
Sand becomes (255,255,255), Grass becomes (0,255,0) and Mountain becomes
(255,0,0). -/
theorem C6_quantize_palette_amended :
    quantize_color (0, 0, 255) 1 = some (Color32.from_rgb 0 0 255) ∧
    quantize_color (65, 105, 225) 1 = some (Color32.from_rgb 0 0 255) ∧
    quantize_color (210, 180, 140) 1 = some (Color32.from_rgb 255 255 255) ∧
    quantize_color (34, 139, 34) 1 = some (Color32.from_rgb 0 255 0) ∧
    quantize_color (139, 69, 19) 1 = some (Color32.from_rgb 255 0 0) ∧
    quantize_color (255, 255, 255) 1 = some (Color32.from_rgb 255 255 255) :=
  ⟨quantize_one_deepwater, quantize_one_water, quantize_one_sand, quantize_one_grass,
    quantize_one_mountain, quantize_one_snow⟩

/-- Claim C6, counterexample: the Water base color (65,105,225) quantized at
factor 1 is (0,0,255), not itself. -/
theorem C6_quantize_palette_counterexample :
    quantize_color (65, 105, 225) 1 = some (Color32.from_rgb 0 0 255) ∧
    some (Color32.from_rgb 0 0 255) ≠ some (Color32.from_rgb 65 105 225) :=
  ⟨quantize_one_water, by decide⟩

/-- Claim C7 (confirmed).  `synthesize` never reads `pixel_size`: two configs
that agree on every other field produce identical images for every seed. -/
theorem C7_pixel_size_inert (perlinNew : ℕ → ℚ → ℚ → ℚ) (seed : ℕ)
    (c₁ c₂ : TerrainConfig) (hw : c₁.width = c₂.width) (hh : c₁.height = c₂.height)
    (hsc : c₁.scale = c₂.scale) (ho : c₁.octaves = c₂.octaves)
    (hp : c₁.persistence = c₂.persistence) (hl : c₁.lacunarity = c₂.lacunarity) :
    synthesize perlinNew seed c₁ = synthesize perlinNew seed c₂ := by
  obtain ⟨w₁, h₁, sc₁, o₁, p₁, l₁, px₁⟩ := c₁
  obtain ⟨w₂, h₂, sc₂, o₂, p₂, l₂, px₂⟩ := c₂
  dsimp only at hw hh hsc ho hp hl
  subst hw
  subst hh
  subst hsc
  subst ho
  subst hp
  subst hl
  rfl

/-- Claim C7, witness: pixel sizes 1 and 16 on otherwise equal configs. -/
theorem C7_pixel_size_inert_witness :
    synthesize (fun _ a b => a + b) 3 ⟨2, 2, 1, 1, 1, 2, 1⟩ =
      synthesize (fun _ a b => a + b) 3 ⟨2, 2, 1, 1, 1, 2, 16⟩ :=
  C7_pixel_size_inert (fun _ a b => a + b) 3 ⟨2, 2, 1, 1, 1, 2, 1⟩ ⟨2, 2, 1, 1, 1, 2, 16⟩
    rfl rfl rfl rfl rfl rfl

/-- Claim C8 (code bug).  The code performs no validation: with factor 0,
`quantize_color` reaches the `u32` division `255 / 0` and panics (modelled by
`none`); no `InvalidConfiguration` error is constructed or reported. -/
theorem C8_zero_factor_divzero :
    (∀ color : ℕ × ℕ × ℕ, quantize_color color 0 = none) ∧
    quantize_color (0, 0, 255) 0 = none :=
  ⟨fun _ => rfl, rfl⟩

/-- Claim C9 (confirmed).  `get_terrain_color` is total over every `f64`
shape — finite values, NaN and both infinities — its outputs all lie in the
four-color set {(0,0,255), (0,255,0), (255,0,0), (255,255,255)}, each of the
four is attained, all are fully opaque, and NaN (failing every strict
less-than test) lands in the Snow branch. -/
theorem C9_classifier_total_range :
    (∀ h : F64,
      get_terrain_color h = Color32.from_rgb 0 0 255 ∨
      get_terrain_color h = Color32.from_rgb 0 255 0 ∨
      get_terrain_color h = Color32.from_rgb 255 0 0 ∨
      get_terrain_color h = Color32.from_rgb 255 255 255) ∧
    (∀ h : F64, (get_terrain_color h).a = 255) ∧
    get_terrain_color .nan = Color32.from_rgb 255 255 255 ∧
    get_terrain_color .inf = Color32.from_rgb 255 255 255 ∧
    get_terrain_color .neginf = Color32.from_rgb 0 0 255 ∧
    get_terrain_color (.val 0) = Color32.from_rgb 0 0 255 ∧
    get_terrain_color (.val (5 / 10)) = Color32.from_rgb 0 255 0 ∧
    get_terrain_color (.val (3 / 4)) = Color32.from_rgb 255 0 0 ∧
    get_terrain_color (.val 1) = Color32.from_rgb 255 255 255 ∧
    (Color32.from_rgb 0 0 255 ≠ Color32.from_rgb 0 255 0 ∧
      Color32.from_rgb 0 0 255 ≠ Color32.from_rgb 255 0 0 ∧
      Color32.from_rgb 0 0 255 ≠ Color32.from_rgb 255 255 255 ∧
      Color32.from_rgb 0 255 0 ≠ Color32.from_rgb 255 0 0 ∧
      Color32.from_rgb 0 255 0 ≠ Color32.from_rgb 255 255 255 ∧
      Color32.from_rgb 255 0 0 ≠ Color32.from_rgb 255 255 255) := by
  refine ⟨?_, get_terrain_color_a, ?_, ?_, ?_, ?_, ?_, ?_, ?_, by decide⟩
  · intro h
    rcases classify_cases h with hc | hc | hc | hc | hc | hc
    · exact Or.inl (gtc_of_classify h _ _ hc quantize_one_deepwater)
    · exact Or.inl (gtc_of_classify h _ _ hc quantize_one_water)
    · exact Or.inr (Or.inr (Or.inr (gtc_of_classify h _ _ hc quantize_one_sand)))
    · exact Or.inr (Or.inl (gtc_of_classify h _ _ hc quantize_one_grass))
    · exact Or.inr (Or.inr (Or.inl (gtc_of_classify h _ _ hc quantize_one_mountain)))
    · exact Or.inr (Or.inr (Or.inr (gtc_of_classify h _ _ hc quantize_one_snow)))
  · exact gtc_of_classify _ _ _ classify_of_nan quantize_one_snow
  · exact gtc_of_classify _ _ _ classify_of_inf quantize_one_snow
  · exact gtc_of_classify _ _ _ classify_of_neginf quantize_one_deepwater
  · exact gtc_of_classify _ _ _ classify_h000 quantize_one_deepwater
  · exact gtc_of_classify _ _ _ classify_h050 quantize_one_grass
  · exact gtc_of_classify _ _ _ classify_h075 quantize_one_mountain
  · exact gtc_of_classify _ _ _ classify_h100 quantize_one_snow

/-- Claim C10 (confirmed).  `regenerate_terrain` only replaces the stored
terrain with the freshly synthesized buffer; the config, the seed and the
texture handle are untouched, and the noise field is a per-call local. -/
theorem C10_regenerate_frame (perlinNew : ℕ → ℚ → ℚ → ℚ) (app : TerrainApp) :
    (app.regenerate_terrain perlinNew).config = app.config ∧
    (app.regenerate_terrain perlinNew).seed = app.seed ∧
    (app.regenerate_terrain perlinNew).texture_handle = app.texture_handle ∧
    (app.regenerate_terrain perlinNew).terrain = synthesize perlinNew app.seed app.config :=
  ⟨rfl, rfl, rfl, rfl⟩

end TerrainGen
